import Mathlib

/-!
Shallow embedding of the `life_state` simulation core (Python) into Lean 4,
used to check the natural-language specification against the code.

Conventions of the embedding:
* Simulated instants (`datetime`) are integers counting minutes; `timedelta`
  values are integer minute differences.  The hour of an instant is obtained
  with Python floor-division/modulo semantics (`Int.ediv` / `Int.emod`).
* Python floats are modelled as rationals (`ℚ`); the float literals of the
  source appear as the corresponding exact rationals.
* In-place mutation of objects becomes explicit state passing: a Python
  function mutating its argument becomes a Lean function returning the new
  value, and a function that can raise returns an `Except` together with the
  (possibly mutated) input state.
* Python dicts with string keys become association lists preserving
  insertion order (`setAssoc` mirrors `d[k] = v`, `lookupAssoc` mirrors
  `d.get(k)`).
* Calls of `random.random` / `random.choice` / `random.randint` are modelled
  by explicit oracle arguments; theorems quantify over all oracles.
-/

namespace LifeState

/-- Python `max(lo, min(hi, x))` clamping used throughout `models.py`. -/
def clampQ (lo hi x : ℚ) : ℚ := max lo (min hi x)

/-- Python `int()` truncation toward zero of a rational. -/
def pyInt (q : ℚ) : ℤ := if q < 0 then -(⌊-q⌋) else ⌊q⌋

/-- Association-list update with Python dict semantics: replace in place if the
key exists (keeping insertion order), otherwise append. -/
def setAssoc {β : Type} : List (String × β) → String → β → List (String × β)
  | [], k, v => [(k, v)]
  | (k', v') :: rest, k, v =>
      if k' = k then (k, v) :: rest else (k', v') :: setAssoc rest k v

/-- Association-list lookup (Python `d.get(k)`). -/
def lookupAssoc {β : Type} : List (String × β) → String → Option β
  | [], _ => none
  | (k', v') :: rest, k => if k' = k then some v' else lookupAssoc rest k

/-- Substring test, Python `needle in hay` on strings. -/
def hasSubAux (needle : List Char) : List Char → Bool
  | [] => needle.isEmpty
  | c :: t => needle.isPrefixOf (c :: t) || hasSubAux needle t

/-- String containment used by `WorldManager.add_world` for the fork marker. -/
def strHasSub (hay needle : String) : Bool := hasSubAux needle.data hay.data

/-- Actor life-states, `states.State` (core set first, then the extended set). -/
inductive State where
  | Sleeping | Waking_Up | Idle | Transitioning | Driving | Walking
  | Focused_Work | Eating
  | Commuting | Socialising | Leisure | Shopping | Exercising | In_Meeting
  | TimeJumping
deriving DecidableEq

/-- Lowercased state name, Python `state.name.lower()` used as config key. -/
def stateKey : State → String
  | .Sleeping => "sleeping"
  | .Waking_Up => "waking_up"
  | .Idle => "idle"
  | .Transitioning => "transitioning"
  | .Driving => "driving"
  | .Walking => "walking"
  | .Focused_Work => "focused_work"
  | .Eating => "eating"
  | .Commuting => "commuting"
  | .Socialising => "socialising"
  | .Leisure => "leisure"
  | .Shopping => "shopping"
  | .Exercising => "exercising"
  | .In_Meeting => "in_meeting"
  | .TimeJumping => "timejumping"

/-- The unimplemented (extended) states listed in `states.can_transition`. -/
def unimplementedStates : List State :=
  [.Commuting, .Socialising, .Leisure, .Shopping, .Exercising, .In_Meeting, .TimeJumping]

/-- Membership of the core (Prompt 1) state set, `states.is_core_state`. -/
def isCoreState (s : State) : Bool :=
  s ∈ [State.Sleeping, .Waking_Up, .Idle, .Transitioning, .Driving, .Walking,
       .Focused_Work, .Eating]

/-- Presence requirement of an action, `actions.Action.requires_presence`. -/
inductive Presence where
  | Self | Any | Specific
deriving DecidableEq

/-- Calendar entry, `models.TimeBlock` (instants in minutes). -/
structure TimeBlock where
  start_dt : ℤ
  end_dt : ℤ
  required_state : State
  description : Option String := none
deriving DecidableEq

/-- Global time management, `models.WorldClock` (current time in minutes). -/
structure WorldClock where
  current_time : ℤ
  tick_duration_minutes : ℕ := 15
  tick_count : ℕ := 0
deriving DecidableEq

/-- Advance the world clock by one tick, `WorldClock.advance_tick`. -/
def WorldClock.advanceTick (c : WorldClock) : WorldClock :=
  { c with current_time := c.current_time + (c.tick_duration_minutes : ℤ),
           tick_count := c.tick_count + 1 }

/-- A location, `models.Location`. -/
structure Location where
  id : String
  name : String
  category : String
deriving DecidableEq

/-- An actor, `models.Actor` (resources as rationals). -/
structure Actor where
  id : String
  name : String
  home_id : String
  world_id : String
  calendar : List TimeBlock := []
  state : State := .Idle
  substate : Option String := none
  location_id : String
  hunger : ℚ := 20
  fatigue : ℚ := 20
  mood : ℚ := 0
  cash : ℚ := 1000
  energy : ℚ := 100
  battery : ℚ := 100
  current_ticks_left : ℕ := 0
deriving DecidableEq

/-- Resource update with clamping, `Actor.update_resources`. -/
def Actor.updateResources (a : Actor) (hunger_delta fatigue_delta mood_delta : ℚ) : Actor :=
  { a with hunger := clampQ 0 100 (a.hunger + hunger_delta),
           fatigue := clampQ 0 100 (a.fatigue + fatigue_delta),
           mood := clampQ (-2) 2 (a.mood + mood_delta) }

/-- First calendar block containing the instant (half-open interval),
`Actor.get_current_time_block`. -/
def Actor.getCurrentTimeBlock (a : Actor) (t : ℤ) : Option TimeBlock :=
  a.calendar.find? (fun b => decide (b.start_dt ≤ t) && decide (t < b.end_dt))

/-- Complete world state, `models.WorldState` (actors keyed by id, insertion
order preserved; `prob_mass` is the `Optional[float]` field with default
`None`). -/
structure WorldState where
  actors : List (String × Actor) := []
  locations : List Location := []
  clock : WorldClock
  world_id : String := "main"
  prob_mass : Option ℚ := none
deriving DecidableEq

/-- Transition legality, `states.can_transition`. -/
def canTransition (a : Actor) (newState : State) : Bool :=
  if newState ∈ unimplementedStates then false
  else if newState = .Transitioning ∨ newState = .Sleeping then true
  else match a.state with
    | .Sleeping => newState = .Waking_Up
    | .Waking_Up => newState = .Idle ∨ newState = .Eating
    | .Idle => newState ∈ [State.Driving, .Walking, .Focused_Work, .Eating, .Transitioning]
    | .Transitioning => newState ∉ unimplementedStates
    | .Driving => newState ∈ [State.Idle, .Transitioning]
    | .Walking => newState ∈ [State.Idle, .Transitioning]
    | .Focused_Work => newState ∈ [State.Idle, .Transitioning, .Eating]
    | .Eating => newState ∈ [State.Idle, .Transitioning]
    | _ => true

/-- Enter hook, `states.on_enter_state`; `none` models the
`NotImplementedError` raised for extended states (no mutation before the
raise). -/
def onEnterState (a : Actor) (s : State) : Option Actor :=
  match s with
  | .Sleeping => some { a with substate := some "natural_sleep" }
  | .Waking_Up => some { a with substate := some "waking_process" }
  | .Idle => some { a with substate := none }
  | .Transitioning => some { a with substate := some "in_transit" }
  | .Driving => some { a with substate := some "moving" }
  | .Walking => some { a with substate := some "moving" }
  | .Focused_Work => some { a with substate := some "working" }
  | .Eating => some { a with substate := some "consuming" }
  | _ => none

/-- Exit hook, `states.on_exit_state`; core states not in the elif chain are
left unchanged, extended states raise (`none`). -/
def onExitState (a : Actor) (s : State) : Option Actor :=
  match s with
  | .Sleeping => some { a with substate := some "just_woke_up" }
  | .Focused_Work => some { a with substate := some "work_completed" }
  | .Eating => some { a with substate := some "meal_finished" }
  | .Driving => some { a with substate := some "arrived" }
  | .Walking => some { a with substate := some "arrived" }
  | .Waking_Up => some a
  | .Idle => some a
  | .Transitioning => some a
  | _ => none

end LifeState

namespace LifeState

/-- Action record, `actions.Action` (hunger/fatigue deltas are Python ints,
cash delta and weight are floats, `allowed_moods` an int pair). -/
structure Action where
  name : String
  resulting_state : State
  duration_ticks : ℕ := 1
  location_req : Option (List String) := none
  next_location : Option String := none
  hunger_delta : ℤ := 0
  fatigue_delta : ℤ := 0
  cash_delta : ℚ := 0
  allowed_moods : ℤ × ℤ := (-2, 2)
  requires_presence : Presence := .Self
  weight : ℚ := 1
deriving DecidableEq

/-- The twelve home location ids `home_a` … `home_l`. -/
def homesAtoL : List String :=
  ["home_a", "home_b", "home_c", "home_d", "home_e", "home_f",
   "home_g", "home_h", "home_i", "home_j", "home_k", "home_l"]

/-- The six home location ids `home_a` … `home_f`. -/
def homesAtoF : List String :=
  ["home_a", "home_b", "home_c", "home_d", "home_e", "home_f"]

def GO_TO_SLEEP : Action :=
  { name := "Go to Sleep", resulting_state := .Sleeping, duration_ticks := 1,
    location_req := some homesAtoL, fatigue_delta := -20, hunger_delta := 2, weight := 2 }

def WAKE_UP : Action :=
  { name := "Wake Up", resulting_state := .Waking_Up, duration_ticks := 1,
    fatigue_delta := 5, weight := 3/2 }

def STAY_IDLE : Action :=
  { name := "Stay Idle", resulting_state := .Idle, duration_ticks := 1,
    hunger_delta := 1, fatigue_delta := 1, weight := 1 }

def START_TRANSITION : Action :=
  { name := "Start Transition", resulting_state := .Transitioning, duration_ticks := 1,
    fatigue_delta := 2, weight := 6/5 }

def DRIVE_TO_OFFICE : Action :=
  { name := "Drive to Office", resulting_state := .Driving, duration_ticks := 2,
    next_location := some "public_office", fatigue_delta := 3, cash_delta := -5, weight := 3/2 }

def DRIVE_HOME : Action :=
  { name := "Drive Home", resulting_state := .Driving, duration_ticks := 2,
    location_req := some ["public_office", "public_coffee_shop", "public_restaurant", "public_mall"],
    fatigue_delta := 3, cash_delta := -5, weight := 9/5 }

def WALK_TO_PARK : Action :=
  { name := "Walk to Park", resulting_state := .Walking, duration_ticks := 3,
    next_location := some "public_park", fatigue_delta := 5, hunger_delta := 3, weight := 6/5 }

def WALK_TO_COFFEE_SHOP : Action :=
  { name := "Walk to Coffee Shop", resulting_state := .Walking, duration_ticks := 2,
    next_location := some "public_coffee_shop", fatigue_delta := 4, hunger_delta := 2,
    weight := 13/10 }

def START_WORK : Action :=
  { name := "Start Focused Work", resulting_state := .Focused_Work, duration_ticks := 4,
    location_req := some ("public_office" :: homesAtoF),
    fatigue_delta := 8, hunger_delta := 6, cash_delta := 25, allowed_moods := (-1, 2),
    weight := 9/5 }

def EAT_MEAL : Action :=
  { name := "Eat a Meal", resulting_state := .Eating, duration_ticks := 2,
    location_req := some ("public_restaurant" :: "public_coffee_shop" :: homesAtoL),
    hunger_delta := -25, fatigue_delta := 2, cash_delta := -15, weight := 5/2 }

def GRAB_SNACK : Action :=
  { name := "Grab a Snack", resulting_state := .Eating, duration_ticks := 1,
    hunger_delta := -10, cash_delta := -5, weight := 3/2 }

def COMMUTE_BY_CAR : Action :=
  { name := "Commute by Car", resulting_state := .Commuting, duration_ticks := 3,
    location_req := some homesAtoF, next_location := some "public_office",
    fatigue_delta := 4, cash_delta := -8, weight := 2 }

def COMMUTE_WALKING : Action :=
  { name := "Commute Walking", resulting_state := .Commuting, duration_ticks := 6,
    location_req := some homesAtoF, next_location := some "public_office",
    fatigue_delta := 12, hunger_delta := 8, weight := 1 }

def TAKE_BUS : Action :=
  { name := "Take Bus", resulting_state := .Commuting, duration_ticks := 4,
    location_req := some ["public_bus"], next_location := some "public_office",
    fatigue_delta := 2, cash_delta := -3, weight := 13/10 }

def RETURN_HOME_CAR : Action :=
  { name := "Return Home by Car", resulting_state := .Commuting, duration_ticks := 3,
    location_req := some ["public_office"], fatigue_delta := 4, cash_delta := -8,
    weight := 11/5 }

def MEET_COLLEAGUE : Action :=
  { name := "Meet with Colleague", resulting_state := .Socialising, duration_ticks := 3,
    location_req := some ["public_office", "public_coffee_shop"],
    fatigue_delta := 3, hunger_delta := 2, requires_presence := .Any,
    allowed_moods := (-1, 2), weight := 3/2 }

def CHAT_WITH_FRIEND : Action :=
  { name := "Chat with Friend", resulting_state := .Socialising, duration_ticks := 2,
    location_req := some ["public_coffee_shop", "public_bar", "public_park"],
    fatigue_delta := 1, requires_presence := .Any, allowed_moods := (0, 2), weight := 9/5 }

def ATTEND_SOCIAL_EVENT : Action :=
  { name := "Attend Social Event", resulting_state := .Socialising, duration_ticks := 4,
    location_req := some ["public_bar", "public_restaurant"],
    fatigue_delta := 6, hunger_delta := 3, cash_delta := -20, requires_presence := .Any,
    allowed_moods := (0, 2), weight := 6/5 }

def NETWORK_EVENT : Action :=
  { name := "Attend Networking Event", resulting_state := .Socialising, duration_ticks := 3,
    location_req := some ["public_office", "public_restaurant"],
    fatigue_delta := 5, hunger_delta := 2, cash_delta := -10, requires_presence := .Any,
    allowed_moods := (-1, 2), weight := 1 }

def GYM_WORKOUT : Action :=
  { name := "Gym Workout", resulting_state := .Exercising, duration_ticks := 4,
    location_req := some ["public_gym"], fatigue_delta := 15, hunger_delta := 12,
    cash_delta := -12, allowed_moods := (-1, 2), weight := 13/10 }

def JOG_IN_PARK : Action :=
  { name := "Jog in Park", resulting_state := .Exercising, duration_ticks := 3,
    location_req := some ["public_park"], fatigue_delta := 10, hunger_delta := 8,
    allowed_moods := (0, 2), weight := 3/2 }

def HOME_EXERCISE : Action :=
  { name := "Exercise at Home", resulting_state := .Exercising, duration_ticks := 2,
    location_req := some homesAtoL, fatigue_delta := 8, hunger_delta := 6, weight := 6/5 }

def WALK_FOR_EXERCISE : Action :=
  { name := "Walk for Exercise", resulting_state := .Exercising, duration_ticks := 2,
    location_req := some ["public_walking_path", "public_park"],
    fatigue_delta := 6, hunger_delta := 4, weight := 7/5 }

def WATCH_MOVIE : Action :=
  { name := "Watch Movie", resulting_state := .Leisure, duration_ticks := 6,
    location_req := some ("public_cinema" :: homesAtoF),
    fatigue_delta := 2, hunger_delta := 3, cash_delta := -15, weight := 7/5 }

def READ_BOOK : Action :=
  { name := "Read Book", resulting_state := .Leisure, duration_ticks := 3,
    location_req := some ("public_library" :: homesAtoF),
    fatigue_delta := 1, hunger_delta := 1, allowed_moods := (-1, 2), weight := 13/10 }

def BROWSE_LIBRARY : Action :=
  { name := "Browse Library", resulting_state := .Leisure, duration_ticks := 2,
    location_req := some ["public_library"], fatigue_delta := 2, hunger_delta := 1,
    weight := 11/10 }

def RELAX_AT_HOME : Action :=
  { name := "Relax at Home", resulting_state := .Leisure, duration_ticks := 2,
    location_req := some homesAtoL, fatigue_delta := -3, hunger_delta := 2, weight := 8/5 }

def ENJOY_PARK : Action :=
  { name := "Enjoy Time in Park", resulting_state := .Leisure, duration_ticks := 2,
    location_req := some ["public_park"], fatigue_delta := 1, hunger_delta := 2,
    allowed_moods := (-1, 2), weight := 13/10 }

def GROCERY_SHOPPING : Action :=
  { name := "Grocery Shopping", resulting_state := .Shopping, duration_ticks := 3,
    location_req := some ["public_grocery_store"], fatigue_delta := 5, hunger_delta := 3,
    cash_delta := -40, weight := 3/2 }

def MALL_SHOPPING : Action :=
  { name := "Mall Shopping", resulting_state := .Shopping, duration_ticks := 4,
    location_req := some ["public_mall"], fatigue_delta := 6, hunger_delta := 4,
    cash_delta := -60, allowed_moods := (0, 2), weight := 6/5 }

def QUICK_SHOPPING : Action :=
  { name := "Quick Shopping", resulting_state := .Shopping, duration_ticks := 2,
    location_req := some ["public_grocery_store", "public_mall"],
    fatigue_delta := 3, hunger_delta := 2, cash_delta := -25, weight := 7/5 }

def WINDOW_SHOPPING : Action :=
  { name := "Window Shopping", resulting_state := .Shopping, duration_ticks := 2,
    location_req := some ["public_mall"], fatigue_delta := 4, hunger_delta := 2,
    cash_delta := -5, weight := 1 }

def FORMAL_MEETING : Action :=
  { name := "Attend Formal Meeting", resulting_state := .In_Meeting, duration_ticks := 3,
    location_req := some ["public_office"], fatigue_delta := 4, hunger_delta := 3,
    requires_presence := .Any, allowed_moods := (-1, 2), weight := 9/5 }

def TEAM_MEETING : Action :=
  { name := "Team Meeting", resulting_state := .In_Meeting, duration_ticks := 2,
    location_req := some ["public_office"], fatigue_delta := 3, hunger_delta := 2,
    requires_presence := .Any, weight := 8/5 }

def CLIENT_MEETING : Action :=
  { name := "Client Meeting", resulting_state := .In_Meeting, duration_ticks := 4,
    location_req := some ["public_office", "public_restaurant"],
    fatigue_delta := 6, hunger_delta := 4, cash_delta := -30,
    requires_presence := .Specific, allowed_moods := (0, 2), weight := 7/5 }

def VIRTUAL_MEETING : Action :=
  { name := "Virtual Meeting", resulting_state := .In_Meeting, duration_ticks := 2,
    location_req := some (homesAtoF ++ ["public_office"]),
    fatigue_delta := 3, hunger_delta := 2, weight := 3/2 }

def GO_TO_COFFEE_SHOP : Action :=
  { name := "Go to Coffee Shop", resulting_state := .Transitioning, duration_ticks := 1,
    next_location := some "public_coffee_shop", fatigue_delta := 2, weight := 13/10 }

def GO_TO_RESTAURANT : Action :=
  { name := "Go to Restaurant", resulting_state := .Transitioning, duration_ticks := 1,
    next_location := some "public_restaurant", fatigue_delta := 2, weight := 6/5 }

def GO_TO_MALL : Action :=
  { name := "Go to Mall", resulting_state := .Transitioning, duration_ticks := 2,
    next_location := some "public_mall", fatigue_delta := 3, weight := 11/10 }

def GO_TO_GYM : Action :=
  { name := "Go to Gym", resulting_state := .Transitioning, duration_ticks := 1,
    next_location := some "public_gym", fatigue_delta := 2, weight := 6/5 }

def GO_TO_LIBRARY : Action :=
  { name := "Go to Library", resulting_state := .Transitioning, duration_ticks := 1,
    next_location := some "public_library", fatigue_delta := 2, weight := 1 }

def GO_TO_CLINIC : Action :=
  { name := "Go to Clinic", resulting_state := .Transitioning, duration_ticks := 2,
    next_location := some "public_clinic", fatigue_delta := 3, allowed_moods := (-2, 1),
    weight := 4/5 }

def GO_TO_GATEWAY : Action :=
  { name := "Go to Time Machine Gateway", resulting_state := .Transitioning,
    duration_ticks := 3, next_location := some "time_machine_gateway", fatigue_delta := 5,
    allowed_moods := (0, 2), weight := 1/2 }

def TIME_JUMP : Action :=
  { name := "Perform Time Jump", resulting_state := .TimeJumping, duration_ticks := 1,
    location_req := some ["time_machine_gateway"], fatigue_delta := 20, hunger_delta := 10,
    allowed_moods := (0, 2), weight := 1 }

/-- Core action registry, `actions.CORE_ACTIONS`. -/
def CORE_ACTIONS : List Action :=
  [GO_TO_SLEEP, WAKE_UP, STAY_IDLE, START_TRANSITION,
   DRIVE_TO_OFFICE, DRIVE_HOME, WALK_TO_PARK, WALK_TO_COFFEE_SHOP,
   START_WORK, EAT_MEAL, GRAB_SNACK]

/-- Extended action registry, `actions.EXTENDED_ACTIONS`. -/
def EXTENDED_ACTIONS : List Action :=
  [COMMUTE_BY_CAR, COMMUTE_WALKING, TAKE_BUS, RETURN_HOME_CAR,
   MEET_COLLEAGUE, CHAT_WITH_FRIEND, ATTEND_SOCIAL_EVENT, NETWORK_EVENT,
   GYM_WORKOUT, JOG_IN_PARK, HOME_EXERCISE, WALK_FOR_EXERCISE,
   WATCH_MOVIE, READ_BOOK, BROWSE_LIBRARY, RELAX_AT_HOME, ENJOY_PARK,
   GROCERY_SHOPPING, MALL_SHOPPING, QUICK_SHOPPING, WINDOW_SHOPPING,
   FORMAL_MEETING, TEAM_MEETING, CLIENT_MEETING, VIRTUAL_MEETING,
   GO_TO_COFFEE_SHOP, GO_TO_RESTAURANT, GO_TO_MALL, GO_TO_GYM,
   GO_TO_LIBRARY, GO_TO_CLINIC, GO_TO_GATEWAY,
   TIME_JUMP]

/-- All actions, `actions.ALL_ACTIONS`. -/
def ALL_ACTIONS : List Action := CORE_ACTIONS ++ EXTENDED_ACTIONS

/-- Core actions grouped by resulting state in catalog order,
`actions.CORE_ACTIONS_BY_STATE` (dict insertion preserves catalog order
within each state). -/
def coreActionsByState (s : State) : List Action :=
  CORE_ACTIONS.filter (fun act => act.resulting_state = s)

/-- Full catalog grouped by resulting state, `actions.ACTIONS_BY_STATE`. -/
def actionsByState (s : State) : List Action :=
  ALL_ACTIONS.filter (fun act => act.resulting_state = s)

/-- The per-action checks of the loop body of `actions.get_available_actions`
(a `continue` for each failing check, hence a conjunction). -/
def availablePasses (a : Actor) (core_only : Bool) (act : Action) : Bool :=
  (match act.location_req with
   | none => true
   | some locs => a.location_id ∈ locs) &&
  ((act.allowed_moods.1 : ℚ) ≤ a.mood && a.mood ≤ (act.allowed_moods.2 : ℚ)) &&
  (let new_hunger := a.hunger + (act.hunger_delta : ℚ)
   let new_fatigue := a.fatigue + (act.fatigue_delta : ℚ)
   (0 ≤ new_hunger && new_hunger ≤ 100) && (0 ≤ new_fatigue && new_fatigue ≤ 100)) &&
  (0 ≤ a.cash + act.cash_delta) &&
  (!core_only || isCoreState act.resulting_state)

/-- Eligibility filter, `actions.get_available_actions`. -/
def getAvailableActions (a : Actor) (core_only : Bool) : List Action :=
  (if core_only then CORE_ACTIONS else ALL_ACTIONS).filter (availablePasses a core_only)

/-- The per-action checks of `actions.lookup_forced` (location, mood,
resource bounds, cash; no core-state check there). -/
def forcedPasses (a : Actor) (act : Action) : Bool :=
  (match act.location_req with
   | none => true
   | some locs => a.location_id ∈ locs) &&
  ((act.allowed_moods.1 : ℚ) ≤ a.mood && a.mood ≤ (act.allowed_moods.2 : ℚ)) &&
  (let new_hunger := a.hunger + (act.hunger_delta : ℚ)
   let new_fatigue := a.fatigue + (act.fatigue_delta : ℚ)
   (0 ≤ new_hunger && new_hunger ≤ 100) && (0 ≤ new_fatigue && new_fatigue ≤ 100)) &&
  (0 ≤ a.cash + act.cash_delta)

/-- Forced-action lookup for calendar enforcement, `actions.lookup_forced`. -/
def lookupForced (target : State) (a : Actor) (core_only : Bool) : Option Action :=
  (if core_only then coreActionsByState target else actionsByState target).find?
    (forcedPasses a)

/-- Lowercase a character and map space and hyphen to underscore, as in the
substate label computation of `actions.apply_action`. -/
def cleanChar (c : Char) : Char :=
  if c = ' ' ∨ c = '-' then '_' else c.toLower

/-- The substate label `"action_" + name.lower().replace(...)` of
`actions.apply_action`. -/
def actionLabel (act : Action) : String :=
  "action_" ++ String.mk (act.name.data.map cleanChar)

/-- Instrumented version of `actions.apply_action`.  The body of the Python
function is one `try` block of successive in-place mutations; `failAt = some k`
models an exception raised just before the k-th statement (0-based), which the
`except` handler turns into a `False` return WITHOUT undoing the assignments
already made.  `failAt = none` is the normal, exception-free execution. -/
def applyActionSteps (failAt : Option ℕ) (act : Action) (a : Actor) : Bool × Actor :=
  let fails : ℕ → Bool := fun k => match failAt with
    | none => false
    | some j => decide (j ≤ k)
  if fails 0 then (false, a) else
  let a := { a with state := act.resulting_state }
  if fails 1 then (false, a) else
  let a := { a with substate := some (actionLabel act) }
  if fails 2 then (false, a) else
  let a := match act.next_location with
    | some loc => { a with location_id := loc }
    | none => a
  if fails 3 then (false, a) else
  let a := a.updateResources (act.hunger_delta : ℚ) (act.fatigue_delta : ℚ) 0
  if fails 4 then (false, a) else
  let a := { a with cash := if a.cash + act.cash_delta < 0 then 0
                            else a.cash + act.cash_delta }
  if fails 5 then (false, a) else
  (true, { a with current_ticks_left := act.duration_ticks - 1 })

/-- Action application, `actions.apply_action` (the exception-free run of the
try block; on the plain `Actor` model no statement of the body can raise). -/
def applyAction (act : Action) (a : Actor) : Bool × Actor :=
  applyActionSteps none act a

end LifeState

namespace LifeState

/-- Base insertion weight for time jumps, `time_jump.TIME_JUMP_PROB = 0.02`. -/
def TIME_JUMP_PROB : ℚ := 1/50

/-- Hour of an instant in minutes, Python `datetime.hour`. -/
def hourOf (t : ℤ) : ℤ := (t.ediv 60).emod 24

/-- Gateway eligibility, `time_jump.gateway_open`.  The `Actor` model has no
`coffee_left` attribute, so the `hasattr` guard leaves `coffee_ok = True`;
`getattr(actor, "energy", ...)`/`"battery"` read the actual fields.  No
statement of the body can raise on this model, so the defensive
`except: return False` is not reachable. -/
def gatewayOpen (a : Actor) (clock : WorldClock) : Bool :=
  let loc_ok := a.location_id = "time_machine_gateway"
  let hour := hourOf clock.current_time
  let time_ok := (6 ≤ hour ∧ hour < 8) ∨ 22 ≤ hour
  let mood_ok := 0 ≤ a.mood
  let resource_ok := a.fatigue < 80 ∧ a.hunger < 70
  let cash_ok := 50 ≤ a.cash
  let energy_ok := 30 ≤ a.energy
  let coffee_ok := True
  let battery_ok := 20 ≤ a.battery
  decide loc_ok && decide time_ok && decide mood_ok && decide resource_ok &&
    decide cash_ok && decide energy_ok && decide coffee_ok && decide battery_ok

/-- Bundle of resource deltas of a time jump,
`time_jump.calculate_time_jump_effects` result dict. -/
structure JumpEffects where
  fatigue_delta : ℚ
  hunger_delta : ℚ
  mood_delta : ℚ
  energy_delta : ℚ
  cash_delta : ℚ
  battery_delta : ℚ
deriving DecidableEq

/-- Jump-cost calculation, `time_jump.calculate_time_jump_effects`
(`time_delta` in minutes, negative = jump to the past). -/
def calculateTimeJumpEffects (time_delta : ℤ) : JumpEffects :=
  let e : JumpEffects :=
    { fatigue_delta := 15, hunger_delta := 8, mood_delta := -1/2,
      energy_delta := -20, cash_delta := -50, battery_delta := -10 }
  let hours_jumped : ℚ := |(time_delta : ℚ)| / 60
  let e := if 24 < hours_jumped then
      { e with mood_delta := e.mood_delta - 3/10, fatigue_delta := e.fatigue_delta + 10,
               cash_delta := e.cash_delta - 25 } else e
  let e := if 168 < hours_jumped then
      { e with mood_delta := e.mood_delta - 1/2, fatigue_delta := e.fatigue_delta + 20,
               energy_delta := e.energy_delta - 30 } else e
  if time_delta < 0 then
      { e with fatigue_delta := e.fatigue_delta + 5, mood_delta := e.mood_delta - 1/5,
               cash_delta := e.cash_delta - 15 } else e

/-- Update the entry of a key in place (Python mutation of an object held in a
dict), leaving the list unchanged when the key is absent. -/
def updateAssocIfPresent {β : Type} (l : List (String × β)) (k : String) (f : β → β) :
    List (String × β) :=
  l.map (fun p => if p.1 = k then (p.1, f p.2) else p)

/-- Effects application to the cloned jumping actor inside
`time_jump.fork_world` (lines 185-209 of the source). -/
def applyJumpEffects (eff : JumpEffects) (a : Actor) : Actor :=
  let a := a.updateResources eff.hunger_delta eff.fatigue_delta eff.mood_delta
  let a := { a with energy := clampQ 0 100 (a.energy + eff.energy_delta) }
  let a := { a with cash := max 0 (a.cash + eff.cash_delta) }
  let a := { a with battery := clampQ 0 100 (a.battery + eff.battery_delta) }
  { a with state := .Idle, substate := some "post_time_jump" }

/-- Python `hasattr(world, "prob_mass")`: the pydantic `WorldState` model
declares the field (default `None`), so this is constantly true. -/
def hasattrProbMass (_ : WorldState) : Bool := true

/-- World forking, `time_jump.fork_world`.  The `suffix` argument stands for
the random uuid hex suffix.  Returns the result of the call (`ok` with the
forked world, or `error` for the re-raised `RuntimeError`) TOGETHER with the
source world as left behind by the call, since the function mutates the
source actor and the source mass in place.  The jumping actor `jumper` is the
source-world actor performing the jump (all call sites pass
`src.actors[jumper.id]`). -/
def forkWorld (suffix : String) (src : WorldState) (jumper : Actor) (target_time : ℤ) :
    Except String WorldState × WorldState :=
  let fork_id := src.world_id ++ "_fork_" ++ suffix
  let forkedActors := src.actors.map (fun p => (p.1, { p.2 with world_id := fork_id }))
  let forked := { src with world_id := fork_id, actors := forkedActors }
  let time_delta := target_time - src.clock.current_time
  let hours_jumped : ℚ := (time_delta : ℚ) / 60
  let ticks_jumped := pyInt (hours_jumped * 4)
  let newTicks := (max 0 ((src.clock.tick_count : ℤ) + ticks_jumped)).toNat
  let forkedClock := { forked.clock with current_time := target_time, tick_count := newTicks }
  let forked := { forked with clock := forkedClock }
  let forked := match lookupAssoc forked.actors jumper.id with
    | some _ =>
        let effects := calculateTimeJumpEffects time_delta
        let acts := updateAssocIfPresent forked.actors jumper.id (applyJumpEffects effects)
        { forked with actors := acts }
    | none => forked
  let srcActors := updateAssocIfPresent src.actors jumper.id
      (fun a => { a with state := .Idle, substate := some "time_jumped_away" })
  let src := { src with actors := srcActors }
  let forked := { forked with prob_mass := some TIME_JUMP_PROB }
  if hasattrProbMass src then
    match src.prob_mass with
    | some m => (Except.ok forked, { src with prob_mass := some (m * (1 - TIME_JUMP_PROB)) })
    | none =>
        (Except.error "World forking failed: unsupported operand types for *=", src)
  else
    (Except.ok forked, { src with prob_mass := some (1 - TIME_JUMP_PROB) })

/-- Manager for multiple world timelines, `time_jump.WorldManager`. -/
structure WorldManager where
  worlds : List (String × WorldState) := []
  active_forks : List String := []
  fork_history : List (String × List String) := []
  main_world_id : Option String := none
deriving DecidableEq

/-- Add a world to the manager, `WorldManager.add_world`.  Every `WorldState`
carries the `prob_mass` field, so the "set probability mass if not already
set" branch is unreachable. -/
def addWorld (mgr : WorldManager) (w : WorldState) : WorldManager :=
  let worlds := setAssoc mgr.worlds w.world_id w
  let worlds := if hasattrProbMass w then worlds
    else setAssoc worlds w.world_id
      { w with prob_mass := some (if worlds.length = 1 then 1 else 1 / (worlds.length : ℚ)) }
  let main := match mgr.main_world_id with
    | none => some w.world_id
    | some m => some m
  let forks := if strHasSub w.world_id "_fork_" ∧ w.world_id ∉ mgr.active_forks
    then mgr.active_forks ++ [w.world_id] else mgr.active_forks
  { mgr with worlds := worlds, main_world_id := main, active_forks := forks }

/-- Fork creation, `WorldManager.create_fork`.  Returns the raised error or
the new fork id, together with the manager state after the call (the source
world object held by the manager is mutated in place by `fork_world`). -/
def createFork (suffix : String) (mgr : WorldManager) (source_world_id : String)
    (jumper : Actor) (target_time : ℤ) : Except String String × WorldManager :=
  match lookupAssoc mgr.worlds source_world_id with
  | none => (Except.error "ValueError: source world not found", mgr)
  | some source_world =>
    match forkWorld suffix source_world jumper target_time with
    | (Except.error e, srcAfter) =>
        (Except.error e, { mgr with worlds := setAssoc mgr.worlds source_world_id srcAfter })
    | (Except.ok forked, srcAfter) =>
      let mgr1 := { mgr with worlds := setAssoc mgr.worlds source_world_id srcAfter }
      let mgr2 := addWorld mgr1 forked
      match srcAfter.prob_mass with
      | none => (Except.error "TypeError", mgr2)
      | some original_mass =>
        let srcFinal := { srcAfter with prob_mass := some (original_mass * (1 - TIME_JUMP_PROB)) }
        let forkedFinal := { forked with prob_mass := some (original_mass * TIME_JUMP_PROB) }
        let worlds3 := setAssoc (setAssoc mgr2.worlds source_world_id srcFinal)
          forked.world_id forkedFinal
        let mgr3 := { mgr2 with worlds := worlds3 }
        let hist := match lookupAssoc mgr3.fork_history source_world_id with
          | none => setAssoc mgr3.fork_history source_world_id [forked.world_id]
          | some l => setAssoc mgr3.fork_history source_world_id (l ++ [forked.world_id])
        (Except.ok forked.world_id, { mgr3 with fork_history := hist })

/-- Calendar override, `calendar_scheduler.override_state`; `none` is the "no
override" result. -/
def overrideState (a : Actor) (clock : WorldClock) : Option State :=
  match a.getCurrentTimeBlock clock.current_time with
  | none => none
  | some current_block =>
    let required_state := current_block.required_state
    if 95 ≤ a.fatigue then some .Idle
    else if 90 ≤ a.hunger ∧ required_state ∉ [State.Eating, State.Sleeping] then some .Idle
    else if a.mood ≤ -9/5 ∧ required_state ∈ [State.Socialising, State.In_Meeting] then
      some .Idle
    else if a.cash ≤ 0 ∧ required_state ∈ [State.Shopping, State.Leisure] then some .Idle
    else if required_state = .Focused_Work then
      if a.location_id ∉ ["public_office"] ∧ ¬ (a.location_id.startsWith "home_") then
        some .Transitioning
      else some required_state
    else if required_state = .In_Meeting then
      if a.location_id ∉ ["public_office", "public_restaurant"] then some .Transitioning
      else some required_state
    else if required_state = .Exercising then
      if a.location_id ∉ ["public_gym", "public_park", "public_walking_path"] ++ homesAtoL
      then some .Transitioning
      else some required_state
    else if required_state = .Shopping then
      if a.location_id ∉ ["public_mall", "public_grocery_store"] then some .Transitioning
      else some required_state
    else if required_state = .Socialising then
      if a.location_id ∉ ["public_coffee_shop", "public_restaurant", "public_bar",
                          "public_park", "public_office"] then some .Transitioning
      else some required_state
    else some required_state

/-- Resource rate configuration, the three mappings of
`world.get_resource_rates`. -/
structure Rates where
  fatigue_rate : List (String × ℚ)
  hunger_rate : List (String × ℚ)
  mood_modifiers : List (String × ℚ)

/-- Default configuration of `world.load_config` (no `config.yaml` ships with
the package, so the `FileNotFoundError` default dict is used). -/
def defaultRates : Rates :=
  { fatigue_rate :=
      [("sleeping", -5), ("waking_up", 1/2), ("idle", 1/5), ("transitioning", 1),
       ("driving", 3/2), ("walking", 2), ("focused_work", 3), ("eating", 1/2)],
    hunger_rate :=
      [("sleeping", 3/10), ("waking_up", 1/2), ("idle", 4/5), ("transitioning", 1),
       ("driving", 6/5), ("walking", 3/2), ("focused_work", 9/5), ("eating", -15)],
    mood_modifiers :=
      [("sleeping", 1/10), ("waking_up", -1/10), ("idle", -1/20), ("transitioning", 0),
       ("driving", -1/50), ("walking", 1/20), ("focused_work", 1/50), ("eating", 3/20)] }

/-- Python `d.get(key, default)` on a rate mapping. -/
def rateGet (l : List (String × ℚ)) (k : String) (d : ℚ) : ℚ := (lookupAssoc l k).getD d

/-- Per-state resource decay, `tick_engine._update_actor_resources`. -/
def updateActorResources (rates : Rates) (a : Actor) : Actor :=
  let state_key := stateKey a.state
  let fatigue_delta := rateGet rates.fatigue_rate state_key (1/2)
  let hunger_delta := rateGet rates.hunger_rate state_key (4/5)
  let mood_delta := rateGet rates.mood_modifiers state_key 0
  let a := a.updateResources hunger_delta fatigue_delta mood_delta
  if a.state = .Driving then { a with battery := max 0 (a.battery - 2) }
  else if a.state = .Focused_Work then { a with energy := max 0 (a.energy - 3/2) }
  else a

/-- Outcomes of the `random.random()` / `random.choice` draws made for one
actor inside `tick_engine` state logic (a coin is true iff the drawn float is
below the threshold of its call site; a choice is reduced modulo the length
of the candidate list). -/
structure RandO where
  wakeCoin : Bool := false
  finishWakeCoin : Bool := false
  spontCoin : Bool := false
  arriveCoin : Bool := false
  finishWorkCoin : Bool := false
  finishEatCoin : Bool := false
  idleChoice : ℕ := 0
  transChoice : ℕ := 0

/-- Idle decision logic, `tick_engine._handle_idle_decisions`. -/
def handleIdleDecisions (o : RandO) (a : Actor) : Actor :=
  if 70 < a.hunger ∧ canTransition a .Eating then { a with state := .Eating }
  else if 80 < a.fatigue ∧ canTransition a .Sleeping then { a with state := .Sleeping }
  else if o.spontCoin then
    let valid := [State.Focused_Work, .Eating, .Transitioning].filter (canTransition a)
    if valid.isEmpty then a
    else { a with state := valid.getD (o.idleChoice % valid.length) .Idle }
  else a

/-- Transitioning logic, `tick_engine._handle_transitioning`. -/
def handleTransitioningLogic (o : RandO) (a : Actor) : Actor :=
  let valid := [State.Idle, .Driving, .Walking, .Focused_Work, .Eating].filter
    (canTransition a)
  if valid.isEmpty then { a with state := .Idle }
  else { a with state := valid.getD (o.transChoice % valid.length) .Idle }

/-- State-specific logic, `tick_engine._handle_state_logic`. -/
def handleStateLogic (o : RandO) (a : Actor) : Actor :=
  match a.state with
  | .Sleeping =>
      if a.fatigue < 10 ∧ o.wakeCoin then
        (if canTransition a .Waking_Up then { a with state := .Waking_Up } else a)
      else a
  | .Waking_Up => if o.finishWakeCoin then { a with state := .Idle } else a
  | .Idle => handleIdleDecisions o a
  | .Transitioning => handleTransitioningLogic o a
  | .Driving => if o.arriveCoin then { a with state := .Idle } else a
  | .Walking => if o.arriveCoin then { a with state := .Idle } else a
  | .Focused_Work => if o.finishWorkCoin then { a with state := .Idle } else a
  | .Eating => if o.finishEatCoin then { a with state := .Idle } else a
  | _ => a

/-- Emergency auto-transitions, `tick_engine._check_automatic_transitions`. -/
def checkAutomaticTransitions (a : Actor) : Actor :=
  if 95 ≤ a.fatigue ∧ a.state ≠ .Sleeping then
    (if canTransition a .Sleeping then { a with state := .Sleeping } else a)
  else if 90 ≤ a.hunger ∧ a.state ≠ .Eating then
    (if canTransition a .Eating then { a with state := .Eating } else a)
  else a

/-- Exit/enter hook pair of `tick_engine._process_actor_tick`; a
`NotImplementedError` from either hook is caught (remaining hook calls are
skipped, mutations so far are kept). -/
def runStateHooks (a : Actor) (oldState : State) : Actor :=
  match onExitState a oldState with
  | none => a
  | some a1 =>
    match onEnterState a1 a1.state with
    | none => a1
    | some a2 => a2

/-- One actor of one tick, `tick_engine._process_actor_tick`. -/
def processActorTick (o : RandO) (rates : Rates) (a : Actor) : Actor :=
  let oldState := a.state
  let a1 := updateActorResources rates a
  let a2 := handleStateLogic o a1
  let a3 := checkAutomaticTransitions a2
  if a3.state ≠ oldState then runStateHooks a3 oldState else a3

/-- Event markers used to record the statement order of a tick. -/
inductive SimEvent where
  | clockAdvanced
  | actorProcessed (id : String)
deriving DecidableEq

/-- One world tick of `tick_engine.advance_world`, instrumented with the
order of its effects: the source advances the clock FIRST (line 39) and then
processes each actor (lines 42-44).  Rates come from the default config. -/
def advanceWorldTrace (o : String → RandO) (w : WorldState) : List SimEvent × WorldState :=
  let rates := defaultRates
  let clock1 := w.clock.advanceTick
  let actors1 := w.actors.map (fun p => (p.1, processActorTick (o p.1) rates p.2))
  (SimEvent.clockAdvanced :: w.actors.map (fun p => SimEvent.actorProcessed p.1),
   { w with clock := clock1, actors := actors1 })

/-- One world tick of `tick_engine.advance_world` (state part of the trace). -/
def advanceWorld (o : String → RandO) (w : WorldState) : WorldState :=
  (advanceWorldTrace o w).2

end LifeState

namespace LifeState

/-- Oracle abstracting `probability.choose_action` (weighted random selection
among the eligible actions, possibly the injected time-jump action, or `None`)
and the random jump distance of `simulator.handle_time_jump`, keyed by actor
id. -/
structure SimOracle where
  choice : String → Option Action
  jumpDelta : String → ℤ

/-- Time-jump handling of the driver loop, `simulator.handle_time_jump`
(`time_delta` = target minus current time in minutes; the actor has the
`energy` attribute, so the `hasattr` guard passes). -/
def handleTimeJump (time_delta : ℤ) (a : Actor) : Actor :=
  let effects := calculateTimeJumpEffects time_delta
  let a := a.updateResources effects.hunger_delta effects.fatigue_delta effects.mood_delta
  let a := { a with energy := clampQ 0 100 (a.energy + effects.energy_delta) }
  let a := { a with cash := max 0 (a.cash + effects.cash_delta) }
  let a := { a with battery := clampQ 0 100 (a.battery + effects.battery_delta) }
  { a with state := .Idle, substate := some "post_time_jump" }

/-- Action selection and execution for one actor,
`simulator.process_actor_action`.  `applyAction` always reports success on
this model, so the `if not success` fallbacks are not reachable. -/
def processActorAction (o : SimOracle) (clock : WorldClock) (a : Actor) : Actor :=
  match overrideState a clock with
  | some forced_state =>
    match lookupForced forced_state a true with
    | some act => (applyAction act a).2
    | none => { a with state := .Idle, substate := some "calendar_conflict" }
  | none =>
    match o.choice a.id with
    | some chosen =>
        if chosen = TIME_JUMP then handleTimeJump (o.jumpDelta a.id) a
        else (applyAction chosen a).2
    | none =>
        if a.state ≠ .Idle then
          { a with state := .Idle, substate := some "no_actions_available" }
        else a

/-- One world iteration of the main loop of `simulator.run` (lines 60-81:
busy actors count down, ready actors act, THEN the clock advances),
instrumented with the order of its effects. -/
def runWorldTickTrace (o : SimOracle) (w : WorldState) : List SimEvent × WorldState :=
  let actors1 := w.actors.map (fun p =>
    (p.1, if 0 < p.2.current_ticks_left
          then { p.2 with current_ticks_left := p.2.current_ticks_left - 1 }
          else processActorAction o w.clock p.2))
  (w.actors.map (fun p => SimEvent.actorProcessed p.1) ++ [SimEvent.clockAdvanced],
   { w with actors := actors1, clock := w.clock.advanceTick })

/-- One world iteration of the main loop of `simulator.run` (state part). -/
def runWorldTick (o : SimOracle) (w : WorldState) : WorldState :=
  (runWorldTickTrace o w).2

/-- Iterated simulator ticks of one world, with a per-tick oracle stream. -/
def simTicks (os : ℕ → SimOracle) : ℕ → WorldState → WorldState
  | 0, w => w
  | n + 1, w => simTicks (fun k => os (k + 1)) n (runWorldTick (os 0) w)

/-- Success test on the result of a fallible call. -/
def exceptIsOk (e : Except String WorldState) : Bool :=
  match e with
  | .ok _ => true
  | .error _ => false

/-- The ordering property "the clock advance is the last effect of the tick":
the clock event is at the end of the trace and nowhere else. -/
def clockLast (tr : List SimEvent) : Prop :=
  tr.getLast? = some SimEvent.clockAdvanced ∧ SimEvent.clockAdvanced ∉ tr.dropLast

/-- Resource bounds of §3 of the spec: hunger and fatigue in [0,100], mood in
[-2,2], cash nonnegative. -/
def actorInBounds (a : Actor) : Prop :=
  0 ≤ a.hunger ∧ a.hunger ≤ 100 ∧ 0 ≤ a.fatigue ∧ a.fatigue ≤ 100 ∧
  -2 ≤ a.mood ∧ a.mood ≤ 2 ∧ 0 ≤ a.cash

/-- All actors of a world satisfy the resource bounds. -/
def worldInBounds (w : WorldState) : Prop := ∀ p ∈ w.actors, actorInBounds p.2

/-- Trivial draw outcomes (every coin false, every choice index 0). -/
def nullRandO : RandO := {}

/-- Oracle that selects no action and proposes no jump distance. -/
def noneOracle : SimOracle := { choice := fun _ => none, jumpDelta := fun _ => 0 }

/-- Sample actor busy with a multi-tick action (3 ticks left). -/
def actorBusy : Actor :=
  { id := "a1", name := "Ann", home_id := "home_a", world_id := "main",
    location_id := "home_a", hunger := 25, fatigue := 30, mood := 0,
    current_ticks_left := 3 }

/-- Clock at minute 540 of day 0 (09:00). -/
def clock9 : WorldClock := { current_time := 540 }

/-- World with the busy sample actor. -/
def worldBusy : WorldState := { actors := [("a1", actorBusy)], clock := clock9 }

/-- Sample actor standing at the time-machine gateway. -/
def jumpActor : Actor :=
  { id := "j1", name := "Jay", home_id := "home_a", world_id := "main",
    location_id := "time_machine_gateway", cash := 200 }

/-- World whose probability mass is the default `None`. -/
def worldNoMass : WorldState :=
  { actors := [("j1", jumpActor)], clock := clock9, world_id := "main", prob_mass := none }

/-- The same world with probability mass 1.0 (a root world). -/
def worldMassOne : WorldState := { worldNoMass with prob_mass := some 1 }

/-- Manager holding only the mass-1.0 root world. -/
def mgrC1 : WorldManager := addWorld {} worldMassOne

/-- Manager with no worlds. -/
def emptyMgr : WorldManager := {}

/-- Actor with fatigue 96 and an active Focused_Work calendar block. -/
def actorTired : Actor :=
  { id := "t1", name := "Tess", home_id := "home_a", world_id := "main",
    location_id := "public_office", fatigue := 96,
    calendar := [{ start_dt := 540, end_dt := 600, required_state := .Focused_Work }] }

/-- Clock inside the calendar block of `actorTired`. -/
def clock550 : WorldClock := { current_time := 550 }

/-- Clock at 07:00 (minute 420). -/
def gwClock : WorldClock := { current_time := 420 }

/-- Gateway scenario actor: mood 0.5, fatigue 10, hunger 10, cash 200,
energy 80, battery 80, standing at the gateway. -/
def gwActor : Actor :=
  { id := "g1", name := "Gwen", home_id := "home_a", world_id := "main",
    location_id := "time_machine_gateway", mood := 1/2, fatigue := 10, hunger := 10,
    cash := 200, energy := 80, battery := 80 }

/-- The same actor moved to `home_a`. -/
def gwActorHome : Actor := { gwActor with location_id := "home_a" }

/-- Default-resource actor at home, used to exercise the eligibility filter. -/
def actorC6 : Actor :=
  { id := "c6", name := "Cal", home_id := "home_a", world_id := "main",
    location_id := "home_a" }

/-- Idle actor at home with default resources. -/
def actorC3 : Actor :=
  { id := "c3", name := "Cid", home_id := "home_a", world_id := "main",
    location_id := "home_a" }

/-- Extract the returned fork id of a `createFork` call (`none` = raised). -/
def exceptOkStr (e : Except String String) : Option String :=
  match e with
  | .ok s => some s
  | .error _ => none

end LifeState

namespace LifeState

theorem lookupAssoc_setAssoc_self {β : Type} (l : List (String × β)) (k : String) (v : β) :
    lookupAssoc (setAssoc l k v) k = some v := by
  induction l with
  | nil => simp [setAssoc, lookupAssoc]
  | cons hd tl ih =>
      unfold setAssoc
      by_cases h : hd.1 = k
      · simp [h, lookupAssoc]
      · simp [h, lookupAssoc, ih]

theorem lookupAssoc_map {β : Type} (f : β → β) (l : List (String × β)) (k : String) :
    lookupAssoc (l.map (fun p => (p.1, f p.2))) k = (lookupAssoc l k).map f := by
  induction l with
  | nil => simp [lookupAssoc]
  | cons hd tl ih =>
      by_cases h : hd.1 = k
      · simp [lookupAssoc, h]
      · simp [lookupAssoc, h, ih]

theorem le_clampQ (lo hi x : ℚ) : lo ≤ clampQ lo hi x := le_max_left _ _

theorem clampQ_le (lo hi x : ℚ) (h : lo ≤ hi) : clampQ lo hi x ≤ hi :=
  max_le h (min_le_left _ _)

/-- C10: `WorldManager.add_world` never assigns a default probability mass:
since every `WorldState` has the `prob_mass` field, the branch that would set
a missing mass is unreachable, so a world added with `prob_mass = None` is
stored with `prob_mass` still `None` (not 1.0 for the first world). -/
theorem c10_add_world_keeps_none_mass (mgr : WorldManager) (w : WorldState)
    (h : w.prob_mass = none) :
    (lookupAssoc (addWorld mgr w).worlds w.world_id).map WorldState.prob_mass
      = some none := by
  unfold addWorld
  simp [hasattrProbMass, lookupAssoc_setAssoc_self, h]

/-- Witness for C10 at a concrete manager and world. -/
theorem c10_witness :
    worldNoMass.prob_mass = none ∧
    (lookupAssoc (addWorld emptyMgr worldNoMass).worlds worldNoMass.world_id).map
      WorldState.prob_mass = some none :=
  ⟨rfl, c10_add_world_keeps_none_mass emptyMgr worldNoMass rfl⟩

/-- C7: whenever a calendar block covers the clock instant and fatigue is at
least 95, `override_state` returns Idle, whatever the block requires and
whatever the other resources are (the fatigue escape is checked first). -/
theorem c7_fatigue_escape_wins (a : Actor) (clock : WorldClock) (b : TimeBlock)
    (hb : a.getCurrentTimeBlock clock.current_time = some b) (hf : 95 ≤ a.fatigue) :
    overrideState a clock = some State.Idle := by
  unfold overrideState
  rw [hb]
  simp [hf]

/-- Witness for C7: fatigue 96 with an active Focused_Work block yields Idle. -/
theorem c7_witness :
    actorTired.getCurrentTimeBlock clock550.current_time
        = some { start_dt := 540, end_dt := 600, required_state := .Focused_Work } ∧
    (95 : ℚ) ≤ actorTired.fatigue ∧
    overrideState actorTired clock550 = some State.Idle :=
  ⟨by decide, by decide,
   c7_fatigue_escape_wins actorTired clock550
     { start_dt := 540, end_dt := 600, required_state := .Focused_Work }
     (by decide) (by decide)⟩

/-- C8: `gateway_open` is exactly the conjunction of the eight gates
(location, hour window, mood, fatigue, hunger, cash minimum 50, energy
minimum 30, battery minimum 20); in particular the 07:00 gateway scenario
yields true and the same actor at `home_a` yields false. -/
theorem c8_gateway_conjunction :
    (∀ (a : Actor) (clock : WorldClock),
      gatewayOpen a clock = true ↔
        (a.location_id = "time_machine_gateway" ∧
         ((6 ≤ hourOf clock.current_time ∧ hourOf clock.current_time < 8) ∨
           22 ≤ hourOf clock.current_time) ∧
         0 ≤ a.mood ∧ a.fatigue < 80 ∧ a.hunger < 70 ∧
         50 ≤ a.cash ∧ 30 ≤ a.energy ∧ 20 ≤ a.battery)) ∧
    gatewayOpen gwActor gwClock = true ∧ gatewayOpen gwActorHome gwClock = false := by
  refine ⟨fun a clock => ?_, ?_, ?_⟩
  · unfold gatewayOpen
    simp only [Bool.and_eq_true, decide_eq_true_eq]
    tauto
  · unfold gatewayOpen
    simp only [Bool.and_eq_true, decide_eq_true_eq, gwActor, gwClock]
    norm_num [hourOf]
  · unfold gatewayOpen
    simp only [Bool.and_eq_true, decide_eq_true_eq, gwActorHome, gwActor, gwClock]
    norm_num
    exact fun h => absurd h (by decide)

/-- C3 (divergence witness): when the try block of `apply_action` hits an
exception after the state, substate and location assignments (here: just
before `update_resources`), the call returns False yet the actor is left with
the new state and substate — application is not atomic on failure. -/
theorem c3_failed_apply_leaves_mutation :
    (applyActionSteps (some 3) GO_TO_SLEEP actorC3).1 = false ∧
    ((applyActionSteps (some 3) GO_TO_SLEEP actorC3).2).state = State.Sleeping ∧
    actorC3.state = State.Idle ∧
    ((applyActionSteps (some 3) GO_TO_SLEEP actorC3).2).substate
        = some "action_go_to_sleep" ∧
    actorC3.substate = none := by decide

/-- C2 (divergence witness): forking a world whose `prob_mass` is the default
`None` raises (the `None * float` TypeError is re-raised as RuntimeError), but
the failed call has already mutated the source world: the jumping actor's
substate is left as "time_jumped_away". -/
theorem c2_failed_fork_corrupts_source :
    exceptIsOk (forkWorld "abc12345" worldNoMass jumpActor 900).1 = false ∧
    (lookupAssoc (forkWorld "abc12345" worldNoMass jumpActor 900).2.actors "j1").map
        Actor.substate = some (some "time_jumped_away") ∧
    jumpActor.substate = none := by decide

/-- C1 (divergence witness): starting from a source world of mass 1.0,
`create_fork` leaves the source at mass 0.9604 and the fork at 0.0196: the
mass is split once inside `fork_world` and then again inside `create_fork`,
so source + fork = 0.98, not the original 1.0 (an exact 2 percent loss, far
beyond floating tolerance), and the fork mass is not `TIME_JUMP_PROB * 1`.
The fork id does carry the `_fork_` marker. -/
theorem c1_create_fork_mass_not_conserved :
    exceptOkStr (createFork "abc12345" mgrC1 "main" jumpActor 900).1
        = some "main_fork_abc12345" ∧
    (lookupAssoc (createFork "abc12345" mgrC1 "main" jumpActor 900).2.worlds "main").map
        WorldState.prob_mass = some (some (2401/2500)) ∧
    (lookupAssoc (createFork "abc12345" mgrC1 "main" jumpActor 900).2.worlds
        "main_fork_abc12345").map WorldState.prob_mass = some (some (49/2500)) ∧
    (2401/2500 : ℚ) + 49/2500 ≠ 1 ∧
    (49/2500 : ℚ) ≠ TIME_JUMP_PROB * 1 ∧
    strHasSub "main_fork_abc12345" "_fork_" = true ∧ "main_fork_abc12345" ≠ "main" := by
  have happ : "main" ++ "_fork_" ++ "abc12345" = "main_fork_abc12345" := by decide
  have hne : "main" ≠ "main_fork_abc12345" := by decide
  refine ⟨?_, ?_, ?_, by norm_num, by norm_num [TIME_JUMP_PROB], by decide, by decide⟩ <;>
    norm_num [happ, hne, createFork, forkWorld, addWorld, mgrC1, worldMassOne, worldNoMass,
      jumpActor, clock9, setAssoc, lookupAssoc, updateAssocIfPresent, hasattrProbMass,
      TIME_JUMP_PROB, strHasSub, hasSubAux, exceptOkStr, List.isPrefixOf]

end LifeState

namespace LifeState

/-- C6: every action returned by `get_available_actions` satisfies the five
eligibility predicates re-checked independently: location, inclusive mood
interval, post-delta hunger and fatigue within [0,100], nonnegative cash
after the delta, and (in core-only mode) a core resulting state. -/
theorem c6_eligibility_roundtrip (a : Actor) (core_only : Bool) (act : Action)
    (h : act ∈ getAvailableActions a core_only) :
    (act.location_req = none ∨
      ∃ locs, act.location_req = some locs ∧ a.location_id ∈ locs) ∧
    ((act.allowed_moods.1 : ℚ) ≤ a.mood ∧ a.mood ≤ (act.allowed_moods.2 : ℚ)) ∧
    (0 ≤ a.hunger + (act.hunger_delta : ℚ) ∧ a.hunger + (act.hunger_delta : ℚ) ≤ 100) ∧
    (0 ≤ a.fatigue + (act.fatigue_delta : ℚ) ∧ a.fatigue + (act.fatigue_delta : ℚ) ≤ 100) ∧
    0 ≤ a.cash + act.cash_delta ∧
    (core_only = true → isCoreState act.resulting_state = true) := by
  have hp : availablePasses a core_only act = true := (List.mem_filter.mp h).2
  unfold availablePasses at hp
  simp only [Bool.and_eq_true, Bool.or_eq_true, Bool.not_eq_true', decide_eq_true_eq] at hp
  obtain ⟨⟨⟨⟨hloc, hmood⟩, hres⟩, hcash⟩, hcore⟩ := hp
  refine ⟨?_, hmood, ⟨hres.1.1, hres.1.2⟩, ⟨hres.2.1, hres.2.2⟩, hcash, ?_⟩
  · cases hlr : act.location_req with
    | none => exact Or.inl rfl
    | some locs =>
        rw [hlr] at hloc
        simp only [decide_eq_true_eq] at hloc
        exact Or.inr ⟨locs, rfl, hloc⟩
  · intro hc
    rcases hcore with hfalse | hcs
    · rw [hc] at hfalse; cases hfalse
    · exact hcs

/-- Witness for C6: `STAY_IDLE` is returned for the sample actor in core-only
mode and satisfies the five re-checked predicates. -/
theorem c6_witness :
    STAY_IDLE ∈ getAvailableActions actorC6 true ∧
    ((STAY_IDLE.location_req = none ∨
       ∃ locs, STAY_IDLE.location_req = some locs ∧ actorC6.location_id ∈ locs) ∧
     ((STAY_IDLE.allowed_moods.1 : ℚ) ≤ actorC6.mood ∧
       actorC6.mood ≤ (STAY_IDLE.allowed_moods.2 : ℚ)) ∧
     (0 ≤ actorC6.hunger + (STAY_IDLE.hunger_delta : ℚ) ∧
       actorC6.hunger + (STAY_IDLE.hunger_delta : ℚ) ≤ 100) ∧
     (0 ≤ actorC6.fatigue + (STAY_IDLE.fatigue_delta : ℚ) ∧
       actorC6.fatigue + (STAY_IDLE.fatigue_delta : ℚ) ≤ 100) ∧
     0 ≤ actorC6.cash + STAY_IDLE.cash_delta ∧
     (true = true → isCoreState STAY_IDLE.resulting_state = true)) := by
  have hmem : STAY_IDLE ∈ getAvailableActions actorC6 true := by
    unfold getAvailableActions
    refine List.mem_filter.mpr ⟨by decide, ?_⟩
    unfold availablePasses
    norm_num [actorC6, STAY_IDLE, isCoreState]
  exact ⟨hmem, c6_eligibility_roundtrip actorC6 true STAY_IDLE hmem⟩

theorem applyAction_hunger (act : Action) (a : Actor) :
    ((applyAction act a).2).hunger = clampQ 0 100 (a.hunger + (act.hunger_delta : ℚ)) := by
  unfold applyAction applyActionSteps Actor.updateResources
  cases act.next_location <;> rfl

theorem applyAction_fatigue (act : Action) (a : Actor) :
    ((applyAction act a).2).fatigue = clampQ 0 100 (a.fatigue + (act.fatigue_delta : ℚ)) := by
  unfold applyAction applyActionSteps Actor.updateResources
  cases act.next_location <;> rfl

theorem applyAction_mood (act : Action) (a : Actor) :
    ((applyAction act a).2).mood = clampQ (-2) 2 (a.mood + 0) := by
  unfold applyAction applyActionSteps Actor.updateResources
  cases act.next_location <;> rfl

theorem applyAction_cash (act : Action) (a : Actor) :
    ((applyAction act a).2).cash
      = if a.cash + act.cash_delta < 0 then 0 else a.cash + act.cash_delta := by
  unfold applyAction applyActionSteps Actor.updateResources
  cases act.next_location <;> rfl

theorem applyAction_inBounds (act : Action) (a : Actor) :
    actorInBounds (applyAction act a).2 := by
  unfold actorInBounds
  rw [applyAction_hunger, applyAction_fatigue, applyAction_mood, applyAction_cash]
  refine ⟨le_clampQ _ _ _, clampQ_le _ _ _ (by norm_num), le_clampQ _ _ _,
          clampQ_le _ _ _ (by norm_num), le_clampQ _ _ _,
          clampQ_le _ _ _ (by norm_num), ?_⟩
  split_ifs with hc
  · exact le_refl 0
  · linarith

theorem handleTimeJump_inBounds (d : ℤ) (a : Actor) :
    actorInBounds (handleTimeJump d a) := by
  unfold actorInBounds handleTimeJump Actor.updateResources
  refine ⟨le_clampQ _ _ _, clampQ_le _ _ _ (by norm_num), le_clampQ _ _ _,
          clampQ_le _ _ _ (by norm_num), le_clampQ _ _ _,
          clampQ_le _ _ _ (by norm_num), le_max_left _ _⟩

theorem actorInBounds_setState (a : Actor) (s : State) (sub : Option String)
    (ha : actorInBounds a) : actorInBounds { a with state := s, substate := sub } := ha

theorem processActorAction_inBounds (o : SimOracle) (clock : WorldClock) (a : Actor)
    (ha : actorInBounds a) : actorInBounds (processActorAction o clock a) := by
  unfold processActorAction
  cases hov : overrideState a clock with
  | some st =>
      dsimp only
      cases hlf : lookupForced st a true with
      | some act =>
          dsimp only
          exact applyAction_inBounds act a
      | none =>
          dsimp only
          exact actorInBounds_setState a _ _ ha
  | none =>
      dsimp only
      cases hch : o.choice a.id with
      | some chosen =>
          dsimp only
          by_cases hj : chosen = TIME_JUMP
          · rw [if_pos hj]
            exact handleTimeJump_inBounds (o.jumpDelta a.id) a
          · rw [if_neg hj]
            exact applyAction_inBounds chosen a
      | none =>
          dsimp only
          by_cases hs : a.state ≠ State.Idle
          · rw [if_pos hs]
            exact actorInBounds_setState a _ _ ha
          · rw [if_neg hs]
            exact ha

theorem runWorldTick_inBounds (o : SimOracle) (w : WorldState)
    (hw : worldInBounds w) : worldInBounds (runWorldTick o w) := by
  intro p hp
  unfold runWorldTick runWorldTickTrace at hp
  simp only [List.mem_map] at hp
  obtain ⟨q, hq, rfl⟩ := hp
  by_cases hb : 0 < q.2.current_ticks_left
  · simp only [if_pos hb]
    exact hw q hq
  · simp only [if_neg hb]
    exact processActorAction_inBounds o w.clock q.2 (hw q hq)

theorem simTicks_inBounds (os : ℕ → SimOracle) (n : ℕ) (w : WorldState)
    (hw : worldInBounds w) : worldInBounds (simTicks os n w) := by
  induction n generalizing os w with
  | zero => simpa [simTicks] using hw
  | succ n ih =>
      simpa [simTicks] using ih (fun k => os (k + 1)) (runWorldTick (os 0) w)
        (runWorldTick_inBounds (os 0) w hw)

/-- C9: `update_resources` clamps hunger and fatigue to [0,100] and mood to
[-2,2] unconditionally; `apply_action` floors cash at 0; and along any run of
simulator ticks the bounded-resource invariant is preserved at every
intermediate world state. -/
theorem c9_bounded_resource_invariant :
    (∀ (a : Actor) (hd fd md : ℚ),
       0 ≤ (a.updateResources hd fd md).hunger ∧ (a.updateResources hd fd md).hunger ≤ 100 ∧
       0 ≤ (a.updateResources hd fd md).fatigue ∧
       (a.updateResources hd fd md).fatigue ≤ 100 ∧
       -2 ≤ (a.updateResources hd fd md).mood ∧ (a.updateResources hd fd md).mood ≤ 2) ∧
    (∀ (act : Action) (a : Actor), 0 ≤ ((applyAction act a).2).cash) ∧
    (∀ (os : ℕ → SimOracle) (n : ℕ) (w : WorldState),
       worldInBounds w → worldInBounds (simTicks os n w)) := by
  refine ⟨?_, ?_, ?_⟩
  · intro a hd fd md
    unfold Actor.updateResources
    exact ⟨le_clampQ _ _ _, clampQ_le _ _ _ (by norm_num), le_clampQ _ _ _,
           clampQ_le _ _ _ (by norm_num), le_clampQ _ _ _, clampQ_le _ _ _ (by norm_num)⟩
  · intro act a
    exact (applyAction_inBounds act a).2.2.2.2.2.2
  · exact simTicks_inBounds

/-- Witness for C9: the sample world is in bounds and stays in bounds after
ten simulator ticks. -/
theorem c9_witness :
    worldInBounds worldBusy ∧
    worldInBounds (simTicks (fun _ => noneOracle) 10 worldBusy) := by
  have h : worldInBounds worldBusy := by
    intro p hp
    rw [show worldBusy.actors = [("a1", actorBusy)] from rfl, List.mem_singleton] at hp
    subst hp
    norm_num [actorInBounds, actorBusy]
  exact ⟨h, c9_bounded_resource_invariant.2.2 (fun _ => noneOracle) 10 worldBusy h⟩

end LifeState

namespace LifeState

theorem handleStateLogic_resources (o : RandO) (a : Actor) :
    (handleStateLogic o a).hunger = a.hunger ∧ (handleStateLogic o a).fatigue = a.fatigue ∧
    (handleStateLogic o a).mood = a.mood := by
  unfold handleStateLogic handleIdleDecisions handleTransitioningLogic
  cases hs : a.state <;> simp only [hs] <;> first | (split_ifs <;> simp) | simp

theorem checkAutomaticTransitions_resources (a : Actor) :
    (checkAutomaticTransitions a).hunger = a.hunger ∧
    (checkAutomaticTransitions a).fatigue = a.fatigue ∧
    (checkAutomaticTransitions a).mood = a.mood := by
  unfold checkAutomaticTransitions
  split_ifs <;> simp

theorem onExitState_resources (a : Actor) (s : State) (a1 : Actor)
    (h : onExitState a s = some a1) :
    a1.hunger = a.hunger ∧ a1.fatigue = a.fatigue ∧ a1.mood = a.mood := by
  unfold onExitState at h
  cases s <;> simp_all <;> subst h <;> exact ⟨rfl, rfl, rfl⟩

theorem onEnterState_resources (a : Actor) (s : State) (a1 : Actor)
    (h : onEnterState a s = some a1) :
    a1.hunger = a.hunger ∧ a1.fatigue = a.fatigue ∧ a1.mood = a.mood := by
  unfold onEnterState at h
  cases s <;> simp_all <;> subst h <;> exact ⟨rfl, rfl, rfl⟩

theorem runStateHooks_resources (a : Actor) (s : State) :
    (runStateHooks a s).hunger = a.hunger ∧ (runStateHooks a s).fatigue = a.fatigue ∧
    (runStateHooks a s).mood = a.mood := by
  unfold runStateHooks
  cases hex : onExitState a s with
  | none => exact ⟨rfl, rfl, rfl⟩
  | some a1 =>
      obtain ⟨e1, e2, e3⟩ := onExitState_resources a s a1 hex
      dsimp only
      cases hen : onEnterState a1 a1.state with
      | none => exact ⟨e1, e2, e3⟩
      | some a2 =>
          obtain ⟨f1, f2, f3⟩ := onEnterState_resources a1 a1.state a2 hen
          exact ⟨f1.trans e1, f2.trans e2, f3.trans e3⟩

theorem updateActorResources_fields (rates : Rates) (a : Actor) :
    (updateActorResources rates a).hunger
        = clampQ 0 100 (a.hunger + rateGet rates.hunger_rate (stateKey a.state) (4/5)) ∧
    (updateActorResources rates a).fatigue
        = clampQ 0 100 (a.fatigue + rateGet rates.fatigue_rate (stateKey a.state) (1/2)) ∧
    (updateActorResources rates a).mood
        = clampQ (-2) 2 (a.mood + rateGet rates.mood_modifiers (stateKey a.state) 0) := by
  unfold updateActorResources Actor.updateResources
  dsimp only
  split_ifs <;> simp

theorem processActorTick_resources (o : RandO) (rates : Rates) (a : Actor) :
    (processActorTick o rates a).hunger = (updateActorResources rates a).hunger ∧
    (processActorTick o rates a).fatigue = (updateActorResources rates a).fatigue ∧
    (processActorTick o rates a).mood = (updateActorResources rates a).mood := by
  unfold processActorTick
  dsimp only
  obtain ⟨h1, h2, h3⟩ := handleStateLogic_resources o (updateActorResources rates a)
  obtain ⟨g1, g2, g3⟩ :=
    checkAutomaticTransitions_resources (handleStateLogic o (updateActorResources rates a))
  split_ifs with hs
  · obtain ⟨k1, k2, k3⟩ := runStateHooks_resources
      (checkAutomaticTransitions (handleStateLogic o (updateActorResources rates a))) a.state
    exact ⟨k1.trans (g1.trans h1), k2.trans (g2.trans h2), k3.trans (g3.trans h3)⟩
  · exact ⟨g1.trans h1, g2.trans h2, g3.trans h3⟩

/-- C4 as amended: the state-keyed decay rates are applied to every actor on
every `advance_world` tick, regardless of the state-machine transitions of
that tick; but the action-selecting loop of `simulator.run` applies no decay
at all — an actor busy with a previous action has its resources untouched by
a simulator tick (only the tick counter goes down). -/
theorem c4_decay_only_in_advance_world :
    (∀ (o : String → RandO) (w : WorldState) (p : String × Actor), p ∈ w.actors →
       (p.1, processActorTick (o p.1) defaultRates p.2) ∈ (advanceWorld o w).actors ∧
       (processActorTick (o p.1) defaultRates p.2).hunger
           = clampQ 0 100 (p.2.hunger
               + rateGet defaultRates.hunger_rate (stateKey p.2.state) (4/5)) ∧
       (processActorTick (o p.1) defaultRates p.2).fatigue
           = clampQ 0 100 (p.2.fatigue
               + rateGet defaultRates.fatigue_rate (stateKey p.2.state) (1/2)) ∧
       (processActorTick (o p.1) defaultRates p.2).mood
           = clampQ (-2) 2 (p.2.mood
               + rateGet defaultRates.mood_modifiers (stateKey p.2.state) 0)) ∧
    (∀ (o : SimOracle) (w : WorldState) (k : String) (a : Actor),
       lookupAssoc w.actors k = some a → 0 < a.current_ticks_left →
       lookupAssoc (runWorldTick o w).actors k
           = some { a with current_ticks_left := a.current_ticks_left - 1 }) := by
  constructor
  · intro o w p hp
    obtain ⟨h1, h2, h3⟩ := processActorTick_resources (o p.1) defaultRates p.2
    obtain ⟨u1, u2, u3⟩ := updateActorResources_fields defaultRates p.2
    refine ⟨?_, h1.trans u1, h2.trans u2, h3.trans u3⟩
    unfold advanceWorld advanceWorldTrace
    exact List.mem_map.mpr ⟨p, hp, rfl⟩
  · intro o w k a hk hticks
    unfold runWorldTick runWorldTickTrace
    rw [lookupAssoc_map (fun v => if 0 < v.current_ticks_left
          then { v with current_ticks_left := v.current_ticks_left - 1 }
          else processActorAction o w.clock v) w.actors k, hk]
    dsimp only [Option.map]
    rw [if_pos hticks]

/-- Witness for C4 at the sample busy actor and world. -/
theorem c4_witness :
    ("a1", processActorTick nullRandO defaultRates actorBusy) ∈
        (advanceWorld (fun _ => nullRandO) worldBusy).actors ∧
    (processActorTick nullRandO defaultRates actorBusy).hunger
        = clampQ 0 100 (actorBusy.hunger
            + rateGet defaultRates.hunger_rate (stateKey actorBusy.state) (4/5)) ∧
    lookupAssoc (runWorldTick noneOracle worldBusy).actors "a1"
        = some { actorBusy with current_ticks_left := actorBusy.current_ticks_left - 1 } := by
  have h := c4_decay_only_in_advance_world
  have h1 := h.1 (fun _ => nullRandO) worldBusy ("a1", actorBusy) (by simp [worldBusy])
  exact ⟨h1.1, h1.2.1, h.2 noneOracle worldBusy "a1" actorBusy (by decide) (by decide)⟩

/-- C4 divergence witness: one simulator tick leaves the busy actor's hunger
at exactly 25 even though the configured decay for its state is +0.8 per
tick — the claim would require 25.8. -/
theorem c4_counterexample_no_decay :
    (lookupAssoc (runWorldTick noneOracle worldBusy).actors "a1").map Actor.hunger
        = some 25 ∧
    rateGet defaultRates.hunger_rate (stateKey State.Idle) (4/5) = 4/5 ∧
    (25 : ℚ) ≠ 25 + 4/5 := by
  refine ⟨by decide, rfl, by norm_num⟩

/-- C5 as amended: the per-world loop of `simulator.run` advances the clock
by exactly one tick only after all the world's actors have been processed
(each decision reads the pre-advance clock); `tick_engine.advance_world`,
however, advances the clock BEFORE processing its actors (its per-actor
processing does not read the clock). -/
theorem c5_clock_order :
    (∀ (o : SimOracle) (w : WorldState),
       (runWorldTickTrace o w).1
           = w.actors.map (fun p => SimEvent.actorProcessed p.1)
               ++ [SimEvent.clockAdvanced] ∧
       (runWorldTick o w).clock.current_time
           = w.clock.current_time + (w.clock.tick_duration_minutes : ℤ) ∧
       (runWorldTick o w).clock.tick_count = w.clock.tick_count + 1) ∧
    (∀ (o : String → RandO) (w : WorldState),
       (advanceWorldTrace o w).1
           = SimEvent.clockAdvanced :: w.actors.map (fun p => SimEvent.actorProcessed p.1)) :=
  ⟨fun _ _ => ⟨rfl, rfl, rfl⟩, fun _ _ => rfl⟩

/-- C5 divergence witness: in `advance_world` the clock-advance is NOT the
last effect of the tick — on a one-actor world the recorded order is clock
first, actor second. -/
theorem c5_counterexample_clock_first :
    ¬ clockLast (advanceWorldTrace (fun _ => nullRandO) worldBusy).1 := by
  simp only [clockLast]
  decide

end LifeState
